import Mathlib

/-!
A shallow embedding of the wallet-wrapper handlers of the `ledgertrack`
repository (Go sources: the wallet controller in `src/unnamed/part_001`,
the channel controller in `src/unnamed/part_002`), together with a model
of the ledger engine that the wrapper delegates to.

Conventions:
* Go `int64` amounts are embedded as `Int`.  No arithmetic performed by the
  wrapper can overflow `int64` (the only operation is `amount - channelAmount`
  on two in-range values), so no modular reduction is needed.
* HTTP handlers are embedded as pure functions from the decoded request to
  either a validation error (the `api.BadRequest(..., ErrValidation, ...)`
  paths, each taken before any ledger call) or the posting plan / query the
  handler hands to the ledger engine.  Response rendering, JSON decoding
  failures and metadata pass-through are not modelled: no claim concerns them.
* The numscript text built by `fmt.Sprintf` is embedded structurally: each
  `send [ASSET AMOUNT] (source = @S [allowing unbounded overdraft]
  destination = @D)` template becomes a `Posting` record.
-/

/-! ## Currency registry (source: `currencyRegistry`, part_001 lines 48-59) -/

structure CurrencyInfo where
  precision : Nat
  enabled : Bool
deriving DecidableEq, Repr

/-- The hardcoded currency registry of the source (`ALLOWED_CURRENCIES`
override not modelled; the default table is used by every claim). -/
def currencyRegistry : List (String × CurrencyInfo) :=
  [("USD", ⟨2, true⟩), ("EUR", ⟨2, true⟩), ("BTC", ⟨8, true⟩),
   ("NGN", ⟨2, true⟩), ("GHS", ⟨2, true⟩), ("KES", ⟨2, true⟩),
   ("ZMW", ⟨2, true⟩)]

/-- Go map lookup `currencyRegistry[code]`. -/
def registryLookup (code : String) : Option CurrencyInfo :=
  (currencyRegistry.find? (fun p => p.1 == code)).map (fun p => p.2)

/-! ## Identity and address derivation -/

/-- Split a character list at its LAST `'-'`: embeds
`strings.LastIndex(walletID, "-")` followed by the two slices
`walletID[:lastDash]` and `walletID[lastDash+1:]`.  Returns `none` when no
dash is present (Go: `lastDash == -1`). -/
def splitLastDash : List Char → Option (List Char × List Char)
  | [] => none
  | ch :: rest =>
    match splitLastDash rest with
    | some (pre, suf) => some (ch :: pre, suf)
    | none => if ch = '-' then some ([], rest) else none

/-- Parse a walletID into `(userID, currency)` exactly as every handler does
(part_001 lines 119-125 and the identical blocks in the other handlers). -/
def parseWalletID (walletID : String) : Option (String × String) :=
  match splitLastDash walletID.data with
  | some (u, c) => some (⟨u⟩, ⟨c⟩)
  | none => none

/-- `fmt.Sprintf("users:%s:wallets:%s:available", userID, currency)` -/
def availableAddr (userID currency : String) : String :=
  "users:" ++ userID ++ ":wallets:" ++ currency ++ ":available"

/-- `fmt.Sprintf("users:%s:wallets:%s:lien", userID, currency)` -/
def lienAddr (userID currency : String) : String :=
  "users:" ++ userID ++ ":wallets:" ++ currency ++ ":lien"

/-- `fmt.Sprintf("system:control:%s", currency)` -/
def systemControlAddr (currency : String) : String :=
  "system:control:" ++ currency

/-- `fmt.Sprintf("channel:%s", channelID)` -/
def channelAddr (channelID : String) : String :=
  "channel:" ++ channelID

/-- The asset string the source interpolates into every numscript template:
`"%s/2"` applied to the currency — the precision is the hardcoded literal
`2`, independent of the registry. -/
def scriptAsset (currency : String) : String :=
  currency ++ "/2"

/-- The asset string `"{currency}/{precision}"` as the spec defines it
(spec §4.2 `asset(currency, precision)`), for comparison with `scriptAsset`. -/
def assetOf (currency : String) (precision : Nat) : String :=
  currency ++ "/" ++ toString precision

/-! ## Postings and plans -/

/-- One `send` template of a numscript emitted by a handler. -/
structure Posting where
  asset : String
  amount : Int
  source : String
  srcOverdraft : Bool
  destination : String
deriving DecidableEq, Repr

/-- Which ledger a leg is posted on: `.user` is the `{ledger}` of the URL
(`common.LedgerFromContext`), `.named n` is a ledger obtained through
`sys.GetLedgerController(ctx, n)`. -/
inductive LedgerRef
  | user
  | named (name : String)
deriving DecidableEq, Repr

/-- One `CreateTransaction` call: target ledger, posting, reference. -/
structure Leg where
  ledger : LedgerRef
  posting : Posting
  reference : String
deriving DecidableEq, Repr

/-- The validation failures (`api.BadRequest(w, common.ErrValidation, ...)`),
each returned before any ledger call. -/
inductive WalletError
  | validation (msg : String)
deriving DecidableEq, Repr

/-- Decoded body of credit/debit/lien requests (`WalletTransactionRequest`).
The `Metadata` field is omitted: it is passed through opaquely. -/
structure WalletTransactionRequest where
  amount : Int
  reference : String
  channelID : String
  channelAmount : Int
deriving DecidableEq, Repr

/-- Decoded body of a release request (`ReleaseLienRequest`). -/
structure ReleaseLienRequest where
  amount : Int
  reference : String
  mode : String
  channelID : String
  channelAmount : Int
deriving DecidableEq, Repr

/-- The ordered plan of a multi-ledger operation: the primary (user-ledger)
leg, then the optional channel leg, then the optional revenue leg, executed
in that order by the source. -/
structure MultiLegPlan where
  primary : Leg
  channel : Option Leg
  revenueLeg : Option Leg
deriving DecidableEq, Repr

/-- The legs of a plan in the order the source executes them. -/
def MultiLegPlan.legs (p : MultiLegPlan) : List Leg :=
  p.primary :: (p.channel.toList ++ p.revenueLeg.toList)

/-! ## creditWallet (part_001 lines 113-184) -/

/-- The posting plan of `creditWallet`: validations in source order, then a
single user-ledger posting `system:control:{currency}` (unbounded overdraft)
→ `users:{userID}:wallets:{currency}:available`. -/
def creditWallet (walletID : String) (req : WalletTransactionRequest) :
    Except WalletError Leg :=
  match parseWalletID walletID with
  | none => .error (.validation "invalid walletID format")
  | some (userID, currency) =>
    if req.amount ≤ 0 then .error (.validation "amount must be positive")
    else if req.reference = "" then .error (.validation "reference is required")
    else .ok
      { ledger := .user
        posting :=
          { asset := scriptAsset currency
            amount := req.amount
            source := systemControlAddr currency
            srcOverdraft := true
            destination := availableAddr userID currency }
        reference := req.reference }

/-! ## debitWallet (part_001 lines 186-399) -/

/-- The posting plan of `debitWallet`: validations in source order (walletID
parse, amount, reference, then the channel checks when `channelID` is
non-empty), then the user-ledger debit, then — when `channelID` is non-empty
— the channel leg on `channels-{currency}` and, when
`amount - channelAmount > 0`, the revenue leg on `revenue-{currency}`; every
leg reuses the request reference. -/
def debitWallet (walletID : String) (req : WalletTransactionRequest) :
    Except WalletError MultiLegPlan :=
  match parseWalletID walletID with
  | none => .error (.validation "invalid walletID format")
  | some (userID, currency) =>
    if req.amount ≤ 0 then .error (.validation "amount must be positive")
    else if req.reference = "" then .error (.validation "reference is required")
    else if req.channelID ≠ "" ∧ req.channelAmount ≤ 0 then
      .error (.validation "channelAmount must be positive")
    else if req.channelID ≠ "" ∧ req.channelAmount > req.amount then
      .error (.validation "channel amount cannot exceed wallet debit amount")
    else
      let primary : Leg :=
        { ledger := .user
          posting :=
            { asset := scriptAsset currency
              amount := req.amount
              source := availableAddr userID currency
              srcOverdraft := false
              destination := systemControlAddr currency }
          reference := req.reference }
      if req.channelID = "" then
        .ok { primary := primary, channel := none, revenueLeg := none }
      else
        let channelLeg : Leg :=
          { ledger := .named ("channels-" ++ currency)
            posting :=
              { asset := scriptAsset currency
                amount := req.channelAmount
                source := channelAddr req.channelID
                srcOverdraft := true
                destination := "world" }
            reference := req.reference }
        let revenue := req.amount - req.channelAmount
        if revenue > 0 then
          .ok { primary := primary, channel := some channelLeg
                revenueLeg := some
                  { ledger := .named ("revenue-" ++ currency)
                    posting :=
                      { asset := scriptAsset currency
                        amount := revenue
                        source := "world"
                        srcOverdraft := false
                        destination := "revenue:accumulated" }
                    reference := req.reference } }
        else
          .ok { primary := primary, channel := some channelLeg, revenueLeg := none }

/-! ## lienWallet (part_001 lines 402-465) -/

/-- The posting plan of `lienWallet`: validations in source order, then a
single user-ledger posting `available` → `lien` with no overdraft clause. -/
def lienWallet (walletID : String) (req : WalletTransactionRequest) :
    Except WalletError Leg :=
  match parseWalletID walletID with
  | none => .error (.validation "invalid walletID format")
  | some (userID, currency) =>
    if req.amount ≤ 0 then .error (.validation "amount must be positive")
    else if req.reference = "" then .error (.validation "reference is required")
    else .ok
      { ledger := .user
        posting :=
          { asset := scriptAsset currency
            amount := req.amount
            source := availableAddr userID currency
            srcOverdraft := false
            destination := lienAddr userID currency }
        reference := req.reference }

/-! ## releaseLien (part_001 lines 467-671) -/

/-- The posting plan of `releaseLien`: validations in source order (walletID
parse, reference, amount, channel checks), then a primary user-ledger posting
— `lien → world` when `Mode == "PAY"`, otherwise (every other mode string)
`lien → available` — followed, when `channelID` is non-empty, by the same
channel and revenue legs as `debitWallet`, all reusing the request
reference. -/
def releaseLien (walletID : String) (req : ReleaseLienRequest) :
    Except WalletError MultiLegPlan :=
  match parseWalletID walletID with
  | none => .error (.validation "invalid walletID format")
  | some (userID, currency) =>
    if req.reference = "" then .error (.validation "reference is required")
    else if req.amount ≤ 0 then .error (.validation "amount is required for release")
    else if req.channelID ≠ "" ∧ req.channelAmount ≤ 0 then
      .error (.validation "channelAmount must be positive")
    else if req.channelID ≠ "" ∧ req.channelAmount > req.amount then
      .error (.validation "channel amount cannot exceed wallet debit amount")
    else
      let primary : Leg :=
        { ledger := .user
          posting :=
            if req.mode = "PAY" then
              { asset := scriptAsset currency
                amount := req.amount
                source := lienAddr userID currency
                srcOverdraft := false
                destination := "world" }
            else
              { asset := scriptAsset currency
                amount := req.amount
                source := lienAddr userID currency
                srcOverdraft := false
                destination := availableAddr userID currency }
          reference := req.reference }
      if req.channelID = "" then
        .ok { primary := primary, channel := none, revenueLeg := none }
      else
        let channelLeg : Leg :=
          { ledger := .named ("channels-" ++ currency)
            posting :=
              { asset := scriptAsset currency
                amount := req.channelAmount
                source := channelAddr req.channelID
                srcOverdraft := true
                destination := "world" }
            reference := req.reference }
        let revenue := req.amount - req.channelAmount
        if revenue > 0 then
          .ok { primary := primary, channel := some channelLeg
                revenueLeg := some
                  { ledger := .named ("revenue-" ++ currency)
                    posting :=
                      { asset := scriptAsset currency
                        amount := revenue
                        source := "world"
                        srcOverdraft := false
                        destination := "revenue:accumulated" }
                    reference := req.reference } }
        else
          .ok { primary := primary, channel := some channelLeg, revenueLeg := none }

/-! ## createChannel / creditChannel (part_002 lines 33-144) -/

/-- Decoded body of `POST /channels` (`CreateChannelRequest`, metadata
omitted as it is passed through opaquely). -/
structure CreateChannelRequest where
  currency : String
deriving DecidableEq, Repr

/-- Decoded body of `POST /channels/{channelID}/credit`. -/
structure CreditChannelRequest where
  amount : Int
  currency : String
  reference : String
deriving DecidableEq, Repr

/-- `createChannel` result: the 201 payload `{channel_id, currency, ledger}`.
The `channelID` is the fresh UUID the handler generates, passed here as a
parameter. -/
structure CreateChannelResponse where
  channelId : String
  currency : String
  ledger : String
deriving DecidableEq, Repr

/-- The `createChannel` handler: its only validation is `currency != ""`;
it then ensures ledger `channels-{currency}` exists and returns 201. -/
def createChannel (channelID : String) (req : CreateChannelRequest) :
    Except WalletError CreateChannelResponse :=
  if req.currency = "" then .error (.validation "currency is required")
  else .ok
    { channelId := channelID
      currency := req.currency
      ledger := "channels-" ++ req.currency }

/-- The `creditChannel` handler: validations `currency != ""` and
`amount > 0`, then a single posting `world` → `channel:{channelID}` on
ledger `channels-{currency}`. -/
def creditChannel (channelID : String) (req : CreditChannelRequest) :
    Except WalletError Leg :=
  if req.currency = "" then .error (.validation "currency is required")
  else if req.amount ≤ 0 then .error (.validation "amount must be positive")
  else .ok
    { ledger := .named ("channels-" ++ req.currency)
      posting :=
        { asset := scriptAsset req.currency
          amount := req.amount
          source := "world"
          srcOverdraft := false
          destination := channelAddr channelID }
      reference := req.reference }

/-! ## getWalletHistory / getWalletStatement (part_001 lines 673-790) -/

/-- The query filter tree the handlers build through `query.Match`,
`query.Gte`, `query.Lte` and `query.And`. -/
inductive QueryBuilder
  | matchAccounts (accounts : List String)
  | matchReference (reference : String)
  | gte (field : String) (value : String)
  | lte (field : String) (value : String)
  | and (a b : QueryBuilder)
deriving DecidableEq, Repr

/-- `bunpaginate` sort order. -/
inductive SortOrder
  | asc
  | desc
deriving DecidableEq, Repr

/-- The `common.PaginationConfig` literal the handlers pass to
`getPaginatedQuery`. -/
structure PaginationConfig where
  defaultPageSize : Nat
  maxPageSize : Nat
deriving DecidableEq, Repr

/-- The paginated query handed to `l.ListTransactions`: pagination config,
sort column, order and filter tree. -/
structure PaginatedQuery where
  config : PaginationConfig
  column : String
  order : SortOrder
  builder : QueryBuilder
deriving DecidableEq, Repr

/-- The filter tree both read handlers build identically (the block is
duplicated verbatim in the source): match on the wallet's two accounts,
then `And` in the optional `reference`, `startTime` (`Gte` on timestamp) and
`endTime` (`Lte` on timestamp) filters; an empty query-string value means
the filter is absent, as in Go (`r.URL.Query().Get` returns `""`). -/
def walletTxFilter (userID currency reference startTime endTime : String) :
    QueryBuilder :=
  let qb := QueryBuilder.matchAccounts
    [availableAddr userID currency, lienAddr userID currency]
  let qb := if reference ≠ "" then .and qb (.matchReference reference) else qb
  let qb := if startTime ≠ "" then .and qb (.gte "timestamp" startTime) else qb
  if endTime ≠ "" then .and qb (.lte "timestamp" endTime) else qb

/-- `getWalletHistory`: wallet-account filter plus optional filters, sorted
by `"id"` descending, pagination config `{DefaultPageSize: 15,
MaxPageSize: 100}`. -/
def getWalletHistory (walletID reference startTime endTime : String) :
    Except WalletError PaginatedQuery :=
  match parseWalletID walletID with
  | none => .error (.validation "invalid walletID format")
  | some (userID, currency) => .ok
    { config := { defaultPageSize := 15, maxPageSize := 100 }
      column := "id"
      order := .desc
      builder := walletTxFilter userID currency reference startTime endTime }

/-- `getWalletStatement`: identical to `getWalletHistory` except the order
is forced ascending. -/
def getWalletStatement (walletID reference startTime endTime : String) :
    Except WalletError PaginatedQuery :=
  match parseWalletID walletID with
  | none => .error (.validation "invalid walletID format")
  | some (userID, currency) => .ok
    { config := { defaultPageSize := 15, maxPageSize := 100 }
      column := "id"
      order := .asc
      builder := walletTxFilter userID currency reference startTime endTime }

/-! ## The ledger engine

The engine itself (`internal/controller/ledger.CreateTransaction` and the
numscript machine) is repository code that is not among the provided source
files; the wrapper only calls it.  It is modelled here from the spec
(§3 data model, §4.3 adapter, §4.4 idempotency coordinator). -/

/-- Account balances of one ledger, as an association list; a missing
address has balance 0 (accounts materialize lazily, spec §3). -/
abbrev Balances := List (String × Int)

/-- Balance of an address (0 when the account has never been posted to). -/
def getBal (b : Balances) (a : String) : Int :=
  match b.find? (fun p => p.1 == a) with
  | some p => p.2
  | none => 0

/-- Record a new balance for an address. -/
def setBal (b : Balances) (a : String) (v : Int) : Balances :=
  (a, v) :: b

/-- Whether the engine lets the posting's source go negative: either the
script carries `allowing unbounded overdraft`, or the source is the
engine-provided infinite counterparty `world` (spec §3). -/
def sourceMayOverdraft (p : Posting) : Bool :=
  p.srcOverdraft || p.source == "world"

/-- Modelled from the spec: the engine's balance check when executing a
single-`send` script (§4.3: `INSUFFICIENT_FUND` when the engine rejects a
source overdraft; the machine itself is not among the source files).  The
posting is applied iff the source account is allowed to go negative or its
post-commit balance stays ≥ 0. -/
def applyPosting (b : Balances) (p : Posting) : Option Balances :=
  let newSrc := getBal b p.source - p.amount
  if sourceMayOverdraft p = true ∨ 0 ≤ newSrc then
    let b1 := setBal b p.source newSrc
    some (setBal b1 p.destination (getBal b1 p.destination + p.amount))
  else none

/-- A committed engine transaction (spec §3, read as a tuple; the fields a
claim needs). -/
structure Tx where
  id : Nat
  reference : String
  posting : Posting
deriving DecidableEq, Repr

/-- One ledger: committed transactions (most recent first), balances and
the next transaction id. -/
structure LedgerState where
  txs : List Tx
  balances : Balances
  nextId : Nat
deriving DecidableEq, Repr

/-- The empty ledger. -/
def LedgerState.init : LedgerState :=
  { txs := [], balances := [], nextId := 0 }

/-- Engine-side failures of `CreateTransaction` that the claims need. -/
inductive EngineError
  | conflict
  | insufficientFund
deriving DecidableEq, Repr

/-- Modelled from the spec: the engine's `createTransaction`
(`internal/controller/ledger`, not among the source files; behaviour per
§4.4): a non-empty `reference` is unique per ledger — a duplicate with the
identical effective script replays the previously committed transaction
unchanged (same id, no new posting, flag `replayed = true`), a duplicate
with a different script is a `CONFLICT`; otherwise the posting is executed
under the balance check. -/
def createTransaction (st : LedgerState) (ref : String) (p : Posting) :
    Except EngineError (Nat × Bool × LedgerState) :=
  match (if ref = "" then none else st.txs.find? (fun t => t.reference == ref)) with
  | some t => if t.posting = p then .ok (t.id, true, st) else .error .conflict
  | none =>
    match applyPosting st.balances p with
    | some b => .ok (st.nextId, false,
      { txs := { id := st.nextId, reference := ref, posting := p } :: st.txs
        balances := b
        nextId := st.nextId + 1 })
    | none => .error .insufficientFund

/-! ## Wallet operations as a transition system on the user ledger

The channel and revenue legs of multi-ledger plans run on separate ledgers
(`channels-{currency}`, `revenue-{currency}`) and never touch the user
ledger, so for user-ledger invariants only the primary leg matters. -/

/-- A wallet-operation request: any handler invocation, with arbitrary
walletID and body. -/
inductive WalletOp
  | credit (walletID : String) (req : WalletTransactionRequest)
  | debit (walletID : String) (req : WalletTransactionRequest)
  | lien (walletID : String) (req : WalletTransactionRequest)
  | release (walletID : String) (req : ReleaseLienRequest)

/-- Run one user-ledger leg; an engine error leaves the ledger unchanged
(the handler returns without further writes to this ledger). -/
def applyLegUser (st : LedgerState) (leg : Leg) : LedgerState :=
  match createTransaction st leg.reference leg.posting with
  | .ok (_, _, st') => st'
  | .error _ => st

/-- Effect of one handler invocation on the user ledger: a validation
failure performs no ledger call; otherwise the primary leg is submitted. -/
def applyOp (st : LedgerState) : WalletOp → LedgerState
  | .credit w r =>
    match creditWallet w r with
    | .ok leg => applyLegUser st leg
    | .error _ => st
  | .debit w r =>
    match debitWallet w r with
    | .ok plan => applyLegUser st plan.primary
    | .error _ => st
  | .lien w r =>
    match lienWallet w r with
    | .ok leg => applyLegUser st leg
    | .error _ => st
  | .release w r =>
    match releaseLien w r with
    | .ok plan => applyLegUser st plan.primary
    | .error _ => st

/-- The user ledger after a sequence of wallet operations, starting empty. -/
def runOps (ops : List WalletOp) : LedgerState :=
  ops.foldl applyOp LedgerState.init

/-- A user-ledger snapshot reachable by some sequence of wallet operations. -/
def Reachable (st : LedgerState) : Prop :=
  ∃ ops : List WalletOp, runOps ops = st

/-- Number of committed transactions carrying a given reference. -/
def refCount (st : LedgerState) (ref : String) : Nat :=
  st.txs.countP (fun t => t.reference == ref)

/-! ## Full execution of a multi-ledger debit

Mirrors the handler's control flow, including what it writes on each error
path: every engine failure, at whatever stage, is answered with
`common.HandleCommonWriteErrors(w, r, err)` — the response carries only the
engine error, never the ids of already-committed legs. -/

/-- The ledger name of a leg (`""` for the URL ledger). -/
def LedgerRef.label : LedgerRef → String
  | .user => ""
  | .named n => n

/-- The three ledgers a multi-ledger debit can touch: the user ledger of the
URL, `channels-{currency}` and `revenue-{currency}` for the request's
currency. -/
structure MultiState where
  user : LedgerState
  channels : LedgerState
  revenue : LedgerState
deriving DecidableEq, Repr

/-- What `debitWallet` writes to the HTTP response. -/
inductive DebitOutcome
  | badRequest (msg : String)
  | writeError (e : EngineError)
  | created (txid : Nat) (respMetadata : List (String × String))
deriving DecidableEq, Repr

/-- Execution of `debitWallet` against the three ledgers, leg by leg in
source order; each leg failure aborts with `writeError` (the
`HandleCommonWriteErrors` path), leaving the already-committed legs
committed. -/
def debitWalletExec (walletID : String) (req : WalletTransactionRequest)
    (ms : MultiState) : DebitOutcome × MultiState :=
  match debitWallet walletID req with
  | .error (.validation m) => (.badRequest m, ms)
  | .ok plan =>
    match createTransaction ms.user plan.primary.reference plan.primary.posting with
    | .error e => (.writeError e, ms)
    | .ok (txid, _, user') =>
      let ms1 : MultiState := { ms with user := user' }
      match plan.channel with
      | none => (.created txid [], ms1)
      | some cLeg =>
        match createTransaction ms1.channels cLeg.reference cLeg.posting with
        | .error e => (.writeError e, ms1)
        | .ok (ctxid, _, channels') =>
          let ms2 : MultiState := { ms1 with channels := channels' }
          let meta := [("channel_ledger", cLeg.ledger.label),
                       ("channel_tx_id", toString ctxid)]
          match plan.revenueLeg with
          | none => (.created txid meta, ms2)
          | some rLeg =>
            match createTransaction ms2.revenue rLeg.reference rLeg.posting with
            | .error e => (.writeError e, ms2)
            | .ok (rtxid, _, revenue') =>
              (.created txid
                 (meta ++ [("revenue_ledger", rLeg.ledger.label),
                           ("revenue_tx_id", toString rtxid)]),
               { ms2 with revenue := revenue' })

/-! ## Address classification -/

/-- Whether an address belongs to the user wallet subsystem, i.e. starts
with `users:` (the spec's `users:*` account family). -/
def isUsersAddr (a : String) : Bool :=
  match a.data with
  | 'u' :: 's' :: 'e' :: 'r' :: 's' :: ':' :: _ => true
  | _ => false

theorem isUsersAddr_availableAddr (u c : String) :
    isUsersAddr (availableAddr u c) = true := by
  have h : ("users:" ++ u ++ ":wallets:" ++ c ++ ":available").data =
      'u' :: 's' :: 'e' :: 'r' :: 's' :: ':' ::
        (u.data ++ ":wallets:".data ++ c.data ++ ":available".data) := by
    simp [String.data_append]
  simp [isUsersAddr, availableAddr, h]

theorem isUsersAddr_lienAddr (u c : String) :
    isUsersAddr (lienAddr u c) = true := by
  have h : ("users:" ++ u ++ ":wallets:" ++ c ++ ":lien").data =
      'u' :: 's' :: 'e' :: 'r' :: 's' :: ':' ::
        (u.data ++ ":wallets:".data ++ c.data ++ ":lien".data) := by
    simp [String.data_append]
  simp [isUsersAddr, lienAddr, h]

theorem isUsersAddr_systemControlAddr (c : String) :
    isUsersAddr (systemControlAddr c) = false := by
  have h : ("system:control:" ++ c).data =
      's' :: 'y' :: 's' :: 't' :: 'e' :: 'm' :: ':' :: 'c' :: 'o' :: 'n' ::
        't' :: 'r' :: 'o' :: 'l' :: ':' :: c.data := by
    simp [String.data_append]
  simp [isUsersAddr, systemControlAddr, h]

theorem isUsersAddr_world : isUsersAddr "world" = false := by decide

theorem usersAddr_not_world {a : String} (h : isUsersAddr a = true) :
    (a == "world") = false := by
  by_cases he : a = "world"
  · subst he; exact absurd h (by decide)
  · exact beq_eq_false_iff_ne.mpr he

theorem getBal_setBal (b : Balances) (a x : String) (v : Int) :
    getBal (setBal b a v) x = if a = x then v else getBal b x := by
  by_cases h : a = x
  · subst h; simp [getBal, setBal, List.find?]
  · simp [getBal, setBal, List.find?, beq_eq_false_iff_ne.mpr h, h]

/-- A posting is non-negativity-safe when its amount is positive and a
`users:*` source is never granted overdraft.  Every posting the wrapper
emits satisfies this. -/
def PostingSafe (p : Posting) : Prop :=
  0 < p.amount ∧ (isUsersAddr p.source = true → sourceMayOverdraft p = false)

/-- All `users:*` accounts of a balance sheet are non-negative. -/
def UserBalancesNonneg (b : Balances) : Prop :=
  ∀ a : String, isUsersAddr a = true → 0 ≤ getBal b a

theorem applyPosting_userNonneg {b b' : Balances} {p : Posting}
    (hinv : UserBalancesNonneg b) (hsafe : PostingSafe p)
    (happ : applyPosting b p = some b') : UserBalancesNonneg b' := by
  obtain ⟨hamt, hsrc⟩ := hsafe
  simp only [applyPosting] at happ
  split at happ
  · rename_i hg
    injection happ with happ
    intro a ha
    subst happ
    rw [getBal_setBal]
    by_cases hdst : p.destination = a
    · rw [if_pos hdst, getBal_setBal]
      by_cases hs : p.source = p.destination
      · rw [if_pos hs]
        have := hinv a ha
        rw [hs, hdst]
        omega
      · rw [if_neg hs]
        have := hinv a ha
        rw [hdst]
        omega
    · rw [if_neg hdst, getBal_setBal]
      by_cases hs : p.source = a
      · rw [if_pos hs]
        have hw := hsrc (by rw [hs]; exact ha)
        rcases hg with hg | hg
        · rw [hw] at hg; cases hg
        · exact hg
      · rw [if_neg hs]
        exact hinv a ha
  · cases happ

theorem createTransaction_userNonneg {st : LedgerState} {ref : String}
    {p : Posting} {id : Nat} {rep : Bool} {st' : LedgerState}
    (hinv : UserBalancesNonneg st.balances) (hsafe : PostingSafe p)
    (h : createTransaction st ref p = .ok (id, rep, st')) :
    UserBalancesNonneg st'.balances := by
  simp only [createTransaction] at h
  split at h
  · split at h
    · injection h with h
      cases h
      exact hinv
    · cases h
  · split at h
    · rename_i b happ
      injection h with h
      cases h
      exact applyPosting_userNonneg hinv hsafe happ
    · cases h

/-! ## Inversion of the posting plans -/

theorem creditWallet_ok_inv {w : String} {r : WalletTransactionRequest}
    {leg : Leg} (hok : creditWallet w r = .ok leg) :
    ∃ u c, parseWalletID w = some (u, c) ∧ 0 < r.amount ∧ r.reference ≠ "" ∧
      leg = { ledger := .user
              posting := { asset := scriptAsset c, amount := r.amount,
                           source := systemControlAddr c, srcOverdraft := true,
                           destination := availableAddr u c }
              reference := r.reference } := by
  unfold creditWallet at hok
  split at hok
  · exact absurd hok (by simp)
  · rename_i u c heq
    split at hok
    · exact absurd hok (by simp)
    · split at hok
      · exact absurd hok (by simp)
      · rename_i h1 h2
        injection hok with hok
        exact ⟨u, c, heq, by omega, h2, hok.symm⟩

theorem lienWallet_ok_inv {w : String} {r : WalletTransactionRequest}
    {leg : Leg} (hok : lienWallet w r = .ok leg) :
    ∃ u c, parseWalletID w = some (u, c) ∧ 0 < r.amount ∧ r.reference ≠ "" ∧
      leg = { ledger := .user
              posting := { asset := scriptAsset c, amount := r.amount,
                           source := availableAddr u c, srcOverdraft := false,
                           destination := lienAddr u c }
              reference := r.reference } := by
  unfold lienWallet at hok
  split at hok
  · exact absurd hok (by simp)
  · rename_i u c heq
    split at hok
    · exact absurd hok (by simp)
    · split at hok
      · exact absurd hok (by simp)
      · rename_i h1 h2
        injection hok with hok
        exact ⟨u, c, heq, by omega, h2, hok.symm⟩

theorem debitWallet_ok_inv {w : String} {r : WalletTransactionRequest}
    {plan : MultiLegPlan} (hok : debitWallet w r = .ok plan) :
    ∃ u c, parseWalletID w = some (u, c) ∧ 0 < r.amount ∧ r.reference ≠ "" ∧
      plan.primary =
        { ledger := .user
          posting := { asset := scriptAsset c, amount := r.amount,
                       source := availableAddr u c, srcOverdraft := false,
                       destination := systemControlAddr c }
          reference := r.reference } := by
  simp only [debitWallet] at hok
  split at hok
  · exact absurd hok (by simp)
  · rename_i u c heq
    split at hok
    · exact absurd hok (by simp)
    · split at hok
      · exact absurd hok (by simp)
      · split at hok
        · exact absurd hok (by simp)
        · split at hok
          · exact absurd hok (by simp)
          · rename_i h1 h2 h3 h4
            split at hok
            · injection hok with hok
              exact ⟨u, c, heq, by omega, h2, by rw [← hok]⟩
            · split at hok
              · injection hok with hok
                exact ⟨u, c, heq, by omega, h2, by rw [← hok]⟩
              · injection hok with hok
                exact ⟨u, c, heq, by omega, h2, by rw [← hok]⟩

theorem releaseLien_ok_inv {w : String} {r : ReleaseLienRequest}
    {plan : MultiLegPlan} (hok : releaseLien w r = .ok plan) :
    ∃ u c, parseWalletID w = some (u, c) ∧ 0 < r.amount ∧ r.reference ≠ "" ∧
      plan.primary.posting.amount = r.amount ∧
      plan.primary.posting.source = lienAddr u c ∧
      plan.primary.posting.srcOverdraft = false := by
  simp only [releaseLien] at hok
  split at hok
  · exact absurd hok (by simp)
  · rename_i u c heq
    split at hok
    · exact absurd hok (by simp)
    · split at hok
      · exact absurd hok (by simp)
      · split at hok
        · exact absurd hok (by simp)
        · split at hok
          · exact absurd hok (by simp)
          · rename_i h1 h2 h3 h4
            refine ⟨u, c, heq, by omega, h1, ?_⟩
            split at hok
            · injection hok with hok
              rw [← hok]
              constructor
              · split <;> rfl
              constructor
              · split <;> rfl
              · split <;> rfl
            · split at hok
              · injection hok with hok
                rw [← hok]
                constructor
                · split <;> rfl
                constructor
                · split <;> rfl
                · split <;> rfl
              · injection hok with hok
                rw [← hok]
                constructor
                · split <;> rfl
                constructor
                · split <;> rfl
                · split <;> rfl

theorem applyLegUser_userNonneg {st : LedgerState} {leg : Leg}
    (hinv : UserBalancesNonneg st.balances) (hsafe : PostingSafe leg.posting) :
    UserBalancesNonneg (applyLegUser st leg).balances := by
  unfold applyLegUser
  split
  · rename_i id rep st' h
    exact createTransaction_userNonneg hinv hsafe h
  · exact hinv

theorem applyOp_userNonneg (st : LedgerState) (op : WalletOp)
    (hinv : UserBalancesNonneg st.balances) :
    UserBalancesNonneg (applyOp st op).balances := by
  cases op with
  | credit w r =>
    simp only [applyOp]
    split
    · rename_i leg hok
      obtain ⟨u, c, -, hamt, -, hleg⟩ := creditWallet_ok_inv hok
      refine applyLegUser_userNonneg hinv ⟨by rw [hleg]; exact hamt, ?_⟩
      intro h
      rw [hleg, isUsersAddr_systemControlAddr] at h
      cases h
    · exact hinv
  | debit w r =>
    simp only [applyOp]
    split
    · rename_i plan hok
      obtain ⟨u, c, -, hamt, -, hleg⟩ := debitWallet_ok_inv hok
      refine applyLegUser_userNonneg hinv ⟨by rw [hleg]; exact hamt, ?_⟩
      intro h
      rw [hleg] at h ⊢
      simp [sourceMayOverdraft, usersAddr_not_world h]
    · exact hinv
  | lien w r =>
    simp only [applyOp]
    split
    · rename_i leg hok
      obtain ⟨u, c, -, hamt, -, hleg⟩ := lienWallet_ok_inv hok
      refine applyLegUser_userNonneg hinv ⟨by rw [hleg]; exact hamt, ?_⟩
      intro h
      rw [hleg] at h ⊢
      simp [sourceMayOverdraft, usersAddr_not_world h]
    · exact hinv
  | release w r =>
    simp only [applyOp]
    split
    · rename_i plan hok
      obtain ⟨u, c, -, hamt, -, haeq, hsrcEq, hovr⟩ := releaseLien_ok_inv hok
      refine applyLegUser_userNonneg hinv ⟨by rw [haeq]; exact hamt, ?_⟩
      intro h
      simp [sourceMayOverdraft, hovr, usersAddr_not_world h]
    · exact hinv

theorem foldl_applyOp_userNonneg (ops : List WalletOp) :
    ∀ st : LedgerState, UserBalancesNonneg st.balances →
      UserBalancesNonneg (ops.foldl applyOp st).balances := by
  induction ops with
  | nil => intro st h; exact h
  | cons op rest ih =>
    intro st h
    exact ih _ (applyOp_userNonneg st op h)

theorem runOps_userNonneg (ops : List WalletOp) :
    UserBalancesNonneg (runOps ops).balances := by
  refine foldl_applyOp_userNonneg ops LedgerState.init ?_
  intro a _
  simp [LedgerState.init, getBal]

/-! ## Reference uniqueness -/

theorem countP_ref_cons (t : Tx) (l : List Tx) (r0 : String) :
    (t :: l).countP (fun x => x.reference == r0) =
      l.countP (fun x => x.reference == r0) + (if t.reference = r0 then 1 else 0) := by
  rw [List.countP_cons]
  by_cases h : t.reference = r0
  · simp [h]
  · simp [h, beq_eq_false_iff_ne.mpr h]

theorem createTransaction_refCount_le {st : LedgerState} {ref : String}
    {p : Posting} {id : Nat} {rep : Bool} {st' : LedgerState}
    (h : createTransaction st ref p = .ok (id, rep, st'))
    (r0 : String) (hr0 : r0 ≠ "") (hle : refCount st r0 ≤ 1) :
    refCount st' r0 ≤ 1 := by
  simp only [createTransaction] at h
  split at h
  · split at h
    · injection h with h
      cases h
      exact hle
    · cases h
  · rename_i hfind
    split at h
    · injection h with h
      cases h
      by_cases he : ref = r0
      · subst he
        have hnone : st.txs.find? (fun t => t.reference == ref) = none := by
          rw [if_neg hr0] at hfind
          exact hfind
        have hzero : st.txs.countP (fun t => t.reference == ref) = 0 := by
          rw [List.countP_eq_zero]
          intro t ht
          simpa using List.find?_eq_none.mp hnone t ht
        rw [refCount, countP_ref_cons]
        simp [hzero]
      · rw [refCount, countP_ref_cons, if_neg he]
        simpa [refCount] using hle
    · cases h

theorem applyLegUser_refCount_le {st : LedgerState} {leg : Leg}
    (r0 : String) (hr0 : r0 ≠ "") (hle : refCount st r0 ≤ 1) :
    refCount (applyLegUser st leg) r0 ≤ 1 := by
  unfold applyLegUser
  split
  · rename_i id rep st' h
    exact createTransaction_refCount_le h r0 hr0 hle
  · exact hle

theorem applyOp_refCount_le (st : LedgerState) (op : WalletOp)
    (r0 : String) (hr0 : r0 ≠ "") (hle : refCount st r0 ≤ 1) :
    refCount (applyOp st op) r0 ≤ 1 := by
  cases op <;> simp only [applyOp] <;> split <;>
    first
      | exact applyLegUser_refCount_le r0 hr0 hle
      | exact hle

theorem runOps_refCount_le (ops : List WalletOp) (r0 : String) (hr0 : r0 ≠ "") :
    refCount (runOps ops) r0 ≤ 1 := by
  rw [runOps]
  have : ∀ st : LedgerState, refCount st r0 ≤ 1 →
      refCount (ops.foldl applyOp st) r0 ≤ 1 := by
    induction ops with
    | nil => intro st h; exact h
    | cons op rest ih =>
      intro st h
      exact ih _ (applyOp_refCount_le st op r0 hr0 h)
  refine this LedgerState.init ?_
  simp [LedgerState.init, refCount]

/-! ## Credit replay (idempotency through the engine) -/

/-- A full `creditWallet` invocation against the user ledger: the returned
transaction id (`none` on any error path) and the resulting ledger. -/
def creditCall (w : String) (r : WalletTransactionRequest) (st : LedgerState) :
    Option Nat × LedgerState :=
  match creditWallet w r with
  | .error _ => (none, st)
  | .ok leg =>
    match createTransaction st leg.reference leg.posting with
    | .ok (id, _, st') => (some id, st')
    | .error _ => (none, st)

/-- The state transition of one `creditWallet` invocation. -/
def creditStep (w : String) (r : WalletTransactionRequest)
    (st : LedgerState) : LedgerState :=
  (creditCall w r st).2

theorem creditWallet_eq_ok {w u c : String} {r : WalletTransactionRequest}
    (hp : parseWalletID w = some (u, c)) (h1 : 0 < r.amount)
    (h2 : r.reference ≠ "") :
    creditWallet w r = .ok
      { ledger := .user
        posting := { asset := scriptAsset c, amount := r.amount,
                     source := systemControlAddr c, srcOverdraft := true,
                     destination := availableAddr u c }
        reference := r.reference } := by
  simp [creditWallet, hp, h2, not_le.mpr h1]

theorem createTransaction_fresh {st : LedgerState} {ref : String} {p : Posting}
    (href : ref ≠ "")
    (hfind : st.txs.find? (fun t => t.reference == ref) = none)
    (hov : sourceMayOverdraft p = true) :
    createTransaction st ref p = .ok (st.nextId, false,
      { txs := { id := st.nextId, reference := ref, posting := p } :: st.txs
        balances :=
          setBal (setBal st.balances p.source (getBal st.balances p.source - p.amount))
            p.destination
            (getBal (setBal st.balances p.source (getBal st.balances p.source - p.amount))
              p.destination + p.amount)
        nextId := st.nextId + 1 }) := by
  simp [createTransaction, href, hfind, applyPosting, hov]

theorem createTransaction_replay {st : LedgerState} {ref : String}
    {p : Posting} {t : Tx} (href : ref ≠ "")
    (hfind : st.txs.find? (fun x => x.reference == ref) = some t)
    (hpost : t.posting = p) :
    createTransaction st ref p = .ok (t.id, true, st) := by
  simp [createTransaction, href, hfind, hpost]

theorem availableAddr_ne_systemControlAddr (u c c' : String) :
    availableAddr u c ≠ systemControlAddr c' := by
  intro h
  have h1 := isUsersAddr_availableAddr u c
  rw [h, isUsersAddr_systemControlAddr] at h1
  cases h1

/-- First credit against a ledger where the reference is fresh: a new
transaction is committed with id `st0.nextId` and the available account
gains `r.amount`. -/
theorem credit_first {w u c : String} {r : WalletTransactionRequest}
    {st0 : LedgerState}
    (hp : parseWalletID w = some (u, c)) (h1 : 0 < r.amount)
    (h2 : r.reference ≠ "")
    (hfind : st0.txs.find? (fun t => t.reference == r.reference) = none) :
    (creditCall w r st0).1 = some st0.nextId ∧
      (creditStep w r st0).txs =
        { id := st0.nextId, reference := r.reference,
          posting := { asset := scriptAsset c, amount := r.amount,
                       source := systemControlAddr c,
                       srcOverdraft := true,
                       destination := availableAddr u c } } :: st0.txs ∧
      getBal (creditStep w r st0).balances (availableAddr u c) =
        getBal st0.balances (availableAddr u c) + r.amount := by
  have hok := creditWallet_eq_ok hp h1 h2
  have hct := @createTransaction_fresh st0 r.reference
    { asset := scriptAsset c, amount := r.amount,
      source := systemControlAddr c, srcOverdraft := true,
      destination := availableAddr u c } h2 hfind (by simp [sourceMayOverdraft])
  refine ⟨?_, ?_, ?_⟩
  · simp only [creditCall, hok, hct]
  · simp only [creditStep, creditCall, hok, hct]
  · simp only [creditStep, creditCall, hok, hct]
    rw [getBal_setBal, if_pos rfl, getBal_setBal,
      if_neg (fun h => availableAddr_ne_systemControlAddr u c c h.symm)]

/-- A later identical credit only replays: same id, ledger unchanged. -/
theorem credit_replay {w u c : String} {r : WalletTransactionRequest}
    {st1 : LedgerState} {t : Tx}
    (hp : parseWalletID w = some (u, c)) (h1 : 0 < r.amount)
    (h2 : r.reference ≠ "")
    (hfind : st1.txs.find? (fun x => x.reference == r.reference) = some t)
    (hpost : t.posting = { asset := scriptAsset c, amount := r.amount,
                           source := systemControlAddr c, srcOverdraft := true,
                           destination := availableAddr u c }) :
    creditCall w r st1 = (some t.id, st1) := by
  simp only [creditCall, creditWallet_eq_ok hp h1 h2,
    createTransaction_replay h2 hfind hpost]

/-! ## Claim theorems -/

/-- C2: at every user-ledger snapshot reachable by any sequence of wallet
operations, the available and lien balances of every `(userId, currency)`
are non-negative; moreover the debit and lien plans name the wallet's
available account as source with no overdraft allowance, so the engine's
non-negativity check is the enforcing mechanism. -/
theorem claim_C2_user_balances_nonneg {st : LedgerState} (hst : Reachable st) :
    (∀ u c, 0 ≤ getBal st.balances (availableAddr u c) ∧
            0 ≤ getBal st.balances (lienAddr u c)) ∧
    (∀ w r plan, debitWallet w r = .ok plan →
       ∃ u c, parseWalletID w = some (u, c) ∧
         plan.primary.posting.source = availableAddr u c ∧
         plan.primary.posting.srcOverdraft = false) ∧
    (∀ w r leg, lienWallet w r = .ok leg →
       ∃ u c, parseWalletID w = some (u, c) ∧
         leg.posting.source = availableAddr u c ∧
         leg.posting.srcOverdraft = false) := by
  obtain ⟨ops, rfl⟩ := hst
  refine ⟨?_, ?_, ?_⟩
  · intro u c
    exact ⟨runOps_userNonneg ops _ (isUsersAddr_availableAddr u c),
           runOps_userNonneg ops _ (isUsersAddr_lienAddr u c)⟩
  · intro w r plan hok
    obtain ⟨u, c, hp, -, -, hleg⟩ := debitWallet_ok_inv hok
    exact ⟨u, c, hp, by rw [hleg], by rw [hleg]⟩
  · intro w r leg hok
    obtain ⟨u, c, hp, -, -, hleg⟩ := lienWallet_ok_inv hok
    exact ⟨u, c, hp, by rw [hleg], by rw [hleg]⟩

/-- Witness for C2 at a concrete reachable snapshot: credit 100, debit 60,
lien 30 on wallet `u1-USD`. -/
theorem claim_C2_user_balances_nonneg_witness :
    0 ≤ getBal (runOps
      [WalletOp.credit "u1-USD" { amount := 100, reference := "r1", channelID := "", channelAmount := 0 },
       WalletOp.debit "u1-USD" { amount := 60, reference := "r2", channelID := "", channelAmount := 0 },
       WalletOp.lien "u1-USD" { amount := 30, reference := "r3", channelID := "", channelAmount := 0 }]).balances
      (availableAddr "u1" "USD") :=
  ((claim_C2_user_balances_nonneg ⟨_, rfl⟩).1 "u1" "USD").1

/-- C3: a non-empty reference names at most one committed transaction at
every reachable user-ledger snapshot; executing CreditWallet `N ≥ 1` times
with the same `(walletId, amount, reference)` against a ledger where the
reference is fresh commits exactly one transaction, every call returns the
same transaction id, and the available balance grows by `amount` exactly
once. -/
theorem claim_C3_reference_idempotency {w u c : String}
    {r : WalletTransactionRequest} {st0 : LedgerState}
    (hp : parseWalletID w = some (u, c)) (h1 : 0 < r.amount)
    (h2 : r.reference ≠ "") (hfresh : refCount st0 r.reference = 0)
    (N : Nat) (hN : 1 ≤ N) :
    (∀ ops r0, r0 ≠ "" → refCount (runOps ops) r0 ≤ 1) ∧
    (creditStep w r)^[N] st0 = creditStep w r st0 ∧
    (∀ k, k < N →
      (creditCall w r ((creditStep w r)^[k] st0)).1 = some st0.nextId) ∧
    refCount (creditStep w r st0) r.reference = 1 ∧
    getBal (creditStep w r st0).balances (availableAddr u c) =
      getBal st0.balances (availableAddr u c) + r.amount := by
  have hfind : st0.txs.find? (fun t => t.reference == r.reference) = none := by
    rw [List.find?_eq_none]
    intro t ht
    have := List.countP_eq_zero.mp hfresh t ht
    simpa using this
  obtain ⟨hres, htxs, hbal⟩ := credit_first hp h1 h2 hfind
  have hfind1 : (creditStep w r st0).txs.find?
      (fun x => x.reference == r.reference) =
      some { id := st0.nextId, reference := r.reference,
             posting := { asset := scriptAsset c, amount := r.amount,
                          source := systemControlAddr c, srcOverdraft := true,
                          destination := availableAddr u c } } := by
    rw [htxs]
    simp [List.find?]
  have hreplay := credit_replay hp h1 h2 hfind1 rfl
  have hfix : creditStep w r (creditStep w r st0) = creditStep w r st0 := by
    rw [creditStep, hreplay]
  have hiter : ∀ k, (creditStep w r)^[k] (creditStep w r st0) =
      creditStep w r st0 := by
    intro k
    induction k with
    | zero => rfl
    | succ j ih => rw [Function.iterate_succ_apply', ih, hfix]
  refine ⟨fun ops r0 hr0 => runOps_refCount_le ops r0 hr0, ?_, ?_, ?_, hbal⟩
  · obtain ⟨M, rfl⟩ : ∃ M, N = M + 1 := ⟨N - 1, by omega⟩
    rw [Function.iterate_succ_apply]
    exact hiter M
  · intro k hk
    cases k with
    | zero => simpa using hres
    | succ j =>
      rw [Function.iterate_succ_apply, hiter j, hreplay]
  · rw [refCount, htxs, countP_ref_cons, if_pos rfl]
    have : st0.txs.countP (fun x => x.reference == r.reference) = 0 := hfresh
    omega

/-- Witness for C3: wallet `u1-USD`, amount 100, reference `r1`, credited
three times against the empty ledger. -/
theorem claim_C3_reference_idempotency_witness :
    (creditStep "u1-USD" { amount := 100, reference := "r1", channelID := "", channelAmount := 0 })^[3]
        LedgerState.init =
      creditStep "u1-USD" { amount := 100, reference := "r1", channelID := "", channelAmount := 0 }
        LedgerState.init ∧
    refCount (creditStep "u1-USD" { amount := 100, reference := "r1", channelID := "", channelAmount := 0 }
        LedgerState.init) "r1" = 1 :=
  ⟨(@claim_C3_reference_idempotency "u1-USD" "u1" "USD"
      { amount := 100, reference := "r1", channelID := "", channelAmount := 0 }
      LedgerState.init (by decide) (by decide) (by decide)
      (by decide) 3 (by decide)).2.1,
   (@claim_C3_reference_idempotency "u1-USD" "u1" "USD"
      { amount := 100, reference := "r1", channelID := "", channelAmount := 0 }
      LedgerState.init (by decide) (by decide) (by decide)
      (by decide) 3 (by decide)).2.2.2.1⟩

/-- C1 (evaluation at the failing input): the currency registry records
precision 8 for BTC, so the spec's asset string for a BTC posting is
`BTC/8`; yet every plan emitted for wallet `u1-BTC` — credit, debit, lien
and release — carries the hardcoded asset `BTC/2`, which differs from
`BTC/8`. -/
theorem claim_C1_asset_precision_hardcoded :
    registryLookup "BTC" = some { precision := 8, enabled := true } ∧
    assetOf "BTC" 8 = "BTC/8" ∧
    (creditWallet "u1-BTC"
        { amount := 100, reference := "r1", channelID := "", channelAmount := 0 }).toOption.map
      (fun l => l.posting.asset) = some "BTC/2" ∧
    (debitWallet "u1-BTC"
        { amount := 100, reference := "r2", channelID := "", channelAmount := 0 }).toOption.map
      (fun p => p.primary.posting.asset) = some "BTC/2" ∧
    (lienWallet "u1-BTC"
        { amount := 100, reference := "r3", channelID := "", channelAmount := 0 }).toOption.map
      (fun l => l.posting.asset) = some "BTC/2" ∧
    (releaseLien "u1-BTC"
        { amount := 100, reference := "r4", mode := "PAY", channelID := "", channelAmount := 0 }).toOption.map
      (fun p => p.primary.posting.asset) = some "BTC/2" ∧
    ("BTC/2" : String) ≠ "BTC/8" := by
  decide

/-- C4 (counterexample): `DOGE` is absent from the currency registry, yet
`debitWallet` on wallet `u1-DOGE` does not return a validation error — it
emits a ledger posting (and `creditWallet` likewise): the transaction
handlers never consult the registry. -/
theorem claim_C4_counterexample_unknown_currency :
    registryLookup "DOGE" = none ∧
    debitWallet "u1-DOGE"
        { amount := 100, reference := "r1", channelID := "", channelAmount := 0 } =
      .ok { primary :=
              { ledger := .user
                posting := { asset := "DOGE/2", amount := 100,
                             source := "users:u1:wallets:DOGE:available",
                             srcOverdraft := false,
                             destination := "system:control:DOGE" }
                reference := "r1" }
            channel := none, revenueLeg := none } ∧
    creditWallet "u1-DOGE"
        { amount := 100, reference := "r2", channelID := "", channelAmount := 0 } =
      .ok { ledger := .user
            posting := { asset := "DOGE/2", amount := 100,
                         source := "system:control:DOGE",
                         srcOverdraft := true,
                         destination := "users:u1:wallets:DOGE:available" }
            reference := "r2" } :=
  ⟨rfl, rfl, rfl⟩

/-- C4 (amended): for every request to the four transaction handlers whose
reference is empty, whose amount is not positive, or whose walletId contains
no `-`, the handler returns a validation error before any ledger call; the
currency registry is not consulted by these handlers. -/
theorem claim_C4_validation_is_local :
    (∀ w (r : WalletTransactionRequest),
      parseWalletID w = none ∨ r.amount ≤ 0 ∨ r.reference = "" →
      ∃ m, creditWallet w r = .error (.validation m)) ∧
    (∀ w (r : WalletTransactionRequest),
      parseWalletID w = none ∨ r.amount ≤ 0 ∨ r.reference = "" →
      ∃ m, debitWallet w r = .error (.validation m)) ∧
    (∀ w (r : WalletTransactionRequest),
      parseWalletID w = none ∨ r.amount ≤ 0 ∨ r.reference = "" →
      ∃ m, lienWallet w r = .error (.validation m)) ∧
    (∀ w (r : ReleaseLienRequest),
      parseWalletID w = none ∨ r.amount ≤ 0 ∨ r.reference = "" →
      ∃ m, releaseLien w r = .error (.validation m)) := by
  refine ⟨?_, ?_, ?_, ?_⟩ <;> intro w r h <;>
    rcases hp : parseWalletID w with _ | ⟨u, c⟩
  · unfold creditWallet; rw [hp]; exact ⟨_, rfl⟩
  · rcases h with h | h | h
    · rw [hp] at h; cases h
    · unfold creditWallet; rw [hp]; simp [h]
    · unfold creditWallet; rw [hp]
      by_cases ha : r.amount ≤ 0 <;> simp [ha, h]
  · unfold debitWallet; rw [hp]; exact ⟨_, rfl⟩
  · rcases h with h | h | h
    · rw [hp] at h; cases h
    · unfold debitWallet; rw [hp]; simp [h]
    · unfold debitWallet; rw [hp]
      by_cases ha : r.amount ≤ 0 <;> simp [ha, h]
  · unfold lienWallet; rw [hp]; exact ⟨_, rfl⟩
  · rcases h with h | h | h
    · rw [hp] at h; cases h
    · unfold lienWallet; rw [hp]; simp [h]
    · unfold lienWallet; rw [hp]
      by_cases ha : r.amount ≤ 0 <;> simp [ha, h]
  · unfold releaseLien; rw [hp]; exact ⟨_, rfl⟩
  · rcases h with h | h | h
    · rw [hp] at h; cases h
    · unfold releaseLien; rw [hp]
      by_cases hr : r.reference = "" <;> simp [hr, h]
    · unfold releaseLien; rw [hp]; simp [h]

/-- Witness for the amended C4 at a concrete input: a walletID without a
dash is rejected by `creditWallet` with a validation error. -/
theorem claim_C4_validation_is_local_witness :
    ∃ m, creditWallet "nodash"
      { amount := 100, reference := "r1", channelID := "", channelAmount := 0 } =
        .error (.validation m) :=
  claim_C4_validation_is_local.1 "nodash"
    { amount := 100, reference := "r1", channelID := "", channelAmount := 0 }
    (Or.inl (by decide))

/-- A multi-ledger debit request with a channel split: 100 from the wallet,
80 of it through channel `ch1`. -/
def c6Request : WalletTransactionRequest :=
  { amount := 100, reference := "d1", channelID := "ch1", channelAmount := 80 }

/-- A three-ledger state on which the channel leg of `c6Request` fails after
the user leg commits: the wallet holds 500, and the channel ledger already
holds a transaction with reference `d1` and a different posting, so the
channel leg is rejected as a conflict. -/
def c6FailingState : MultiState :=
  { user := { txs := [],
              balances := [("users:u1:wallets:USD:available", 500)],
              nextId := 0 }
    channels := { txs := [{ id := 0, reference := "d1",
                            posting := { asset := "USD/2", amount := 1,
                                         source := "someone:else",
                                         srcOverdraft := false,
                                         destination := "world" } }],
                  balances := [], nextId := 1 }
    revenue := LedgerState.init }

/-- C6 (evaluation at the failing input): when the channel leg of a
multi-ledger debit fails after the user-ledger leg has committed, the
handler answers with the bare engine error — the `writeError` path, which
carries no transaction ids of the committed legs — while the user-ledger
debit stays committed (and no compensating posting is synthesized: the user
ledger holds exactly the one debit transaction). -/
theorem claim_C6_no_leg_ids_on_partial_failure :
    (debitWalletExec "u1-USD" c6Request c6FailingState).1 =
      DebitOutcome.writeError EngineError.conflict ∧
    (debitWalletExec "u1-USD" c6Request c6FailingState).2.user.txs =
      [{ id := 0, reference := "d1",
         posting := { asset := "USD/2", amount := 100,
                      source := "users:u1:wallets:USD:available",
                      srcOverdraft := false,
                      destination := "system:control:USD" } }] ∧
    (debitWalletExec "u1-USD" c6Request c6FailingState).2.channels =
      c6FailingState.channels :=
  ⟨rfl, rfl, rfl⟩

/-- C5: a debit with a channel first rejects the request unless
`0 < channelAmount ≤ amount`, then plans exactly these legs in order:
(1) user ledger `available → system:control:{currency}` for `amount`,
(2) ledger `channels-{currency}`, `channel:{channelId} → world` for
`channelAmount` with unbounded overdraft, (3) ledger `revenue-{currency}`,
`world → revenue:accumulated` for `amount − channelAmount`, skipped when
that difference is zero — all carrying the caller's reference. -/
theorem claim_C5_multi_ledger_debit_plan {w u c : String}
    {r : WalletTransactionRequest}
    (hp : parseWalletID w = some (u, c)) (h1 : 0 < r.amount)
    (h2 : r.reference ≠ "") (hch : r.channelID ≠ "") :
    ((r.channelAmount ≤ 0 ∨ r.amount < r.channelAmount) →
      ∃ m, debitWallet w r = .error (.validation m)) ∧
    (0 < r.channelAmount → r.channelAmount ≤ r.amount →
      (debitWallet w r).toOption.map MultiLegPlan.legs = some
        ([{ ledger := .user
            posting := { asset := scriptAsset c, amount := r.amount,
                         source := availableAddr u c, srcOverdraft := false,
                         destination := systemControlAddr c }
            reference := r.reference },
          { ledger := .named ("channels-" ++ c)
            posting := { asset := scriptAsset c, amount := r.channelAmount,
                         source := channelAddr r.channelID, srcOverdraft := true,
                         destination := "world" }
            reference := r.reference }] ++
         (if 0 < r.amount - r.channelAmount then
            [{ ledger := .named ("revenue-" ++ c)
               posting := { asset := scriptAsset c,
                            amount := r.amount - r.channelAmount,
                            source := "world", srcOverdraft := false,
                            destination := "revenue:accumulated" }
               reference := r.reference }]
          else []))) := by
  constructor
  · intro h
    simp only [debitWallet, hp]
    rcases h with h | h
    · simp [not_le.mpr h1, h2, hch, h]
    · have hcn : ¬(r.channelAmount ≤ 0) := by omega
      simp [not_le.mpr h1, h2, hch, hcn, h]
  · intro ha hb
    simp only [debitWallet, hp]
    simp only [not_le.mpr h1, if_neg, h2, hch, not_le.mpr ha, not_lt.mpr hb]
    by_cases hrev : 0 < r.amount - r.channelAmount
    · simp [not_le.mpr h1, h2, hch, not_le.mpr ha, not_lt.mpr hb, hrev,
        MultiLegPlan.legs]
      exact ⟨_, rfl, rfl, rfl⟩
    · simp [not_le.mpr h1, h2, hch, not_le.mpr ha, not_lt.mpr hb, hrev,
        MultiLegPlan.legs]
      exact ⟨_, rfl, rfl, rfl⟩

/-- Witness for C5: wallet `u1-USD`, amount 100 with 80 through channel
`ch1`: the three legs in order, revenue leg for 20. -/
theorem claim_C5_multi_ledger_debit_plan_witness :
    (debitWallet "u1-USD"
        { amount := 100, reference := "d1", channelID := "ch1",
          channelAmount := 80 }).toOption.map MultiLegPlan.legs = some
      ([{ ledger := .user
          posting := { asset := scriptAsset "USD", amount := 100,
                       source := availableAddr "u1" "USD", srcOverdraft := false,
                       destination := systemControlAddr "USD" }
          reference := "d1" },
        { ledger := .named ("channels-" ++ "USD")
          posting := { asset := scriptAsset "USD", amount := 80,
                       source := channelAddr "ch1", srcOverdraft := true,
                       destination := "world" }
          reference := "d1" }] ++
       (if 0 < (100 : Int) - 80 then
          [{ ledger := .named ("revenue-" ++ "USD")
             posting := { asset := scriptAsset "USD", amount := (100 : Int) - 80,
                          source := "world", srcOverdraft := false,
                          destination := "revenue:accumulated" }
             reference := "d1" }]
        else [])) :=
  (claim_C5_multi_ledger_debit_plan (w := "u1-USD") (u := "u1") (c := "USD")
    (by decide) (by decide) (by decide) (by decide)).2 (by decide) (by decide)

/-- C7: a release plans a primary posting `lien → world` when the mode is
`PAY` and `lien → available` otherwise (in particular for `RELEASE_ONLY`);
when a channelID is supplied, the channel and revenue legs of the
multi-ledger debit plan follow the primary posting, all carrying the
caller's reference. -/
theorem claim_C7_release_modes {w u c : String} {r : ReleaseLienRequest}
    (hp : parseWalletID w = some (u, c)) (h2 : r.reference ≠ "")
    (h1 : 0 < r.amount)
    (hch : r.channelID = "" ∨ (0 < r.channelAmount ∧ r.channelAmount ≤ r.amount)) :
    releaseLien w r = .ok
      { primary :=
          { ledger := .user
            posting :=
              if r.mode = "PAY" then
                { asset := scriptAsset c, amount := r.amount,
                  source := lienAddr u c, srcOverdraft := false,
                  destination := "world" }
              else
                { asset := scriptAsset c, amount := r.amount,
                  source := lienAddr u c, srcOverdraft := false,
                  destination := availableAddr u c }
            reference := r.reference }
        channel :=
          if r.channelID = "" then none
          else some
            { ledger := .named ("channels-" ++ c)
              posting := { asset := scriptAsset c, amount := r.channelAmount,
                           source := channelAddr r.channelID,
                           srcOverdraft := true, destination := "world" }
              reference := r.reference }
        revenueLeg :=
          if r.channelID = "" then none
          else if 0 < r.amount - r.channelAmount then
            some
              { ledger := .named ("revenue-" ++ c)
                posting := { asset := scriptAsset c,
                             amount := r.amount - r.channelAmount,
                             source := "world", srcOverdraft := false,
                             destination := "revenue:accumulated" }
                reference := r.reference }
          else none } := by
  by_cases hc0 : r.channelID = ""
  · simp [releaseLien, hp, h2, not_le.mpr h1, hc0]
  · rcases hch with hc | ⟨ha, hb⟩
    · exact absurd hc hc0
    · by_cases hrev : 0 < r.amount - r.channelAmount
      · simp [releaseLien, hp, h2, not_le.mpr h1, hc0,
          not_le.mpr ha, not_lt.mpr hb, hrev]
      · simp [releaseLien, hp, h2, not_le.mpr h1, hc0,
          not_le.mpr ha, not_lt.mpr hb, hrev]

/-- Witness for C7: a `PAY`-mode release of 100 on `u1-USD` with 80 through
channel `ch1`: `lien → world`, then the channel leg, then the revenue leg
for 20, all with reference `rl1`. -/
theorem claim_C7_release_modes_witness :
    releaseLien "u1-USD"
      { amount := 100, reference := "rl1", mode := "PAY", channelID := "ch1",
        channelAmount := 80 } = .ok
      { primary :=
          { ledger := .user
            posting := { asset := "USD/2", amount := 100,
                         source := lienAddr "u1" "USD", srcOverdraft := false,
                         destination := "world" }
            reference := "rl1" }
        channel := some
          { ledger := .named "channels-USD"
            posting := { asset := "USD/2", amount := 80,
                         source := channelAddr "ch1",
                         srcOverdraft := true, destination := "world" }
            reference := "rl1" }
        revenueLeg := some
          { ledger := .named "revenue-USD"
            posting := { asset := "USD/2", amount := 20,
                         source := "world", srcOverdraft := false,
                         destination := "revenue:accumulated" }
            reference := "rl1" } } := by
  have h := claim_C7_release_modes (w := "u1-USD") (u := "u1") (c := "USD")
    (r := { amount := 100, reference := "rl1", mode := "PAY",
            channelID := "ch1", channelAmount := 80 })
    (by decide) (by decide) (by decide) (Or.inr ⟨by decide, by decide⟩)
  simpa using h

/-- C8: the history query targets the wallet's available and lien accounts
with the optional reference/startTime/endTime filters, sorted by transaction
id descending, with default page size 15 and maximum 100; the statement
query is identical except sorted ascending. -/
theorem claim_C8_history_statement_queries {w u c : String}
    (hp : parseWalletID w = some (u, c)) (ref s e : String) :
    getWalletHistory w ref s e = .ok
      { config := { defaultPageSize := 15, maxPageSize := 100 }
        column := "id"
        order := .desc
        builder := walletTxFilter u c ref s e } ∧
    getWalletStatement w ref s e = .ok
      { config := { defaultPageSize := 15, maxPageSize := 100 }
        column := "id"
        order := .asc
        builder := walletTxFilter u c ref s e } ∧
    walletTxFilter u c "" "" "" =
      QueryBuilder.matchAccounts [availableAddr u c, lienAddr u c] ∧
    (ref ≠ "" → s = "" → e = "" →
      walletTxFilter u c ref s e =
        QueryBuilder.and
          (QueryBuilder.matchAccounts [availableAddr u c, lienAddr u c])
          (QueryBuilder.matchReference ref)) := by
  refine ⟨?_, ?_, ?_, ?_⟩
  · simp [getWalletHistory, hp]
  · simp [getWalletStatement, hp]
  · simp [walletTxFilter]
  · intro h1 h2 h3
    simp [walletTxFilter, h1, h2, h3]

/-- Witness for C8 on wallet `u1-USD` with a reference filter. -/
theorem claim_C8_history_statement_queries_witness :
    getWalletHistory "u1-USD" "r1" "" "" = .ok
      { config := { defaultPageSize := 15, maxPageSize := 100 }
        column := "id"
        order := .desc
        builder := walletTxFilter "u1" "USD" "r1" "" "" } ∧
    getWalletStatement "u1-USD" "r1" "" "" = .ok
      { config := { defaultPageSize := 15, maxPageSize := 100 }
        column := "id"
        order := .asc
        builder := walletTxFilter "u1" "USD" "r1" "" "" } :=
  ⟨(claim_C8_history_statement_queries (by decide) "r1" "" "").1,
   (claim_C8_history_statement_queries (by decide) "r1" "" "").2.1⟩

/-- C9: `releaseLien` never rejects a request because of its mode — the
error behaviour is identical for every mode string — and for every mode
other than exactly `PAY` (such as `release_only`, `release_and_debit`,
`RELEASE_ONLY` or the empty string) the primary posting is
`lien → available`, i.e. the request is treated as a release-only. -/
theorem claim_C9_unrecognized_mode_is_release {w : String}
    {r : ReleaseLienRequest} (hmode : r.mode ≠ "PAY") :
    (∀ m e, releaseLien w r = .error e ↔
            releaseLien w { r with mode := m } = .error e) ∧
    (∀ plan, releaseLien w r = .ok plan →
       ∃ u c, parseWalletID w = some (u, c) ∧
         plan.primary.posting =
           { asset := scriptAsset c, amount := r.amount,
             source := lienAddr u c, srcOverdraft := false,
             destination := availableAddr u c }) := by
  constructor
  · intro m e
    unfold releaseLien
    rcases hp : parseWalletID w with _ | ⟨u, c⟩
    · exact Iff.rfl
    · by_cases h2 : r.reference = ""
      · simp [h2]
      · by_cases h1 : r.amount ≤ 0
        · simp [h2, h1]
        · by_cases h3 : r.channelID ≠ "" ∧ r.channelAmount ≤ 0
          · simp [h2, h1, h3]
          · by_cases h4 : r.channelID ≠ "" ∧ r.channelAmount > r.amount
            · simp [h2, h1, h3, h4]
            · by_cases h5 : r.channelID = ""
              · simp [h2, h1, h3, h4, h5]
              · have h3' : ¬(r.channelAmount ≤ 0) := fun hx => h3 ⟨h5, hx⟩
                have h4' : ¬(r.amount < r.channelAmount) := fun hx => h4 ⟨h5, hx⟩
                by_cases h6 : 0 < r.amount - r.channelAmount
                · simp [h2, h1, h5, h3', h4', h6]
                · simp [h2, h1, h5, h3', h4', h6]
  · intro plan hok
    simp only [releaseLien] at hok
    split at hok
    · exact absurd hok (by simp)
    · rename_i u c heq
      refine ⟨u, c, heq, ?_⟩
      split at hok
      · exact absurd hok (by simp)
      · split at hok
        · exact absurd hok (by simp)
        · split at hok
          · exact absurd hok (by simp)
          · split at hok
            · exact absurd hok (by simp)
            · split at hok
              · injection hok with hok
                simp [← hok, hmode]
              · split at hok
                · injection hok with hok
                  simp [← hok, hmode]
                · injection hok with hok
                  simp [← hok, hmode]

/-- Witness for C9: mode `RELEASE_ONLY` (not recognized by the source,
which only tests for `PAY`) yields the release-only posting. -/
theorem claim_C9_unrecognized_mode_is_release_witness :
    ∃ u c, parseWalletID "u1-USD" = some (u, c) ∧
      ({ primary :=
           { ledger := .user
             posting := { asset := "USD/2", amount := 100,
                          source := "users:u1:wallets:USD:lien",
                          srcOverdraft := false,
                          destination := "users:u1:wallets:USD:available" }
             reference := "rl2" }
         channel := none, revenueLeg := none } : MultiLegPlan).primary.posting =
        { asset := scriptAsset c, amount := 100,
          source := lienAddr u c, srcOverdraft := false,
          destination := availableAddr u c } :=
  (claim_C9_unrecognized_mode_is_release (w := "u1-USD")
    (r := { amount := 100, reference := "rl2", mode := "RELEASE_ONLY",
            channelID := "", channelAmount := 0 }) (by decide)).2
    { primary :=
        { ledger := .user
          posting := { asset := "USD/2", amount := 100,
                       source := "users:u1:wallets:USD:lien",
                       srcOverdraft := false,
                       destination := "users:u1:wallets:USD:available" }
          reference := "rl2" }
      channel := none, revenueLeg := none } rfl

/-- C10: `createChannel` and `creditChannel` accept any non-empty currency
string — the currency registry is never consulted: for every `C ≠ ""`
(including codes absent from the registry) `createChannel` answers 201 with
ledger `channels-C`, and `creditChannel` posts `world → channel:{channelID}`
on ledger `channels-C`. -/
theorem claim_C10_channels_skip_registry {cid : String}
    {cr : CreateChannelRequest} {dr : CreditChannelRequest}
    (hc : cr.currency ≠ "") (hd : dr.currency ≠ "") (ha : 0 < dr.amount) :
    createChannel cid cr = .ok
      { channelId := cid, currency := cr.currency,
        ledger := "channels-" ++ cr.currency } ∧
    creditChannel cid dr = .ok
      { ledger := .named ("channels-" ++ dr.currency)
        posting := { asset := scriptAsset dr.currency, amount := dr.amount,
                     source := "world", srcOverdraft := false,
                     destination := channelAddr cid }
        reference := dr.reference } := by
  constructor
  · simp [createChannel, hc]
  · simp [creditChannel, hd, not_le.mpr ha]

/-- Witness for C10 with currency `DOGE`, a code absent from the registry
(`registryLookup "DOGE" = none`). -/
theorem claim_C10_channels_skip_registry_witness :
    registryLookup "DOGE" = none ∧
    createChannel "ch1" { currency := "DOGE" } = .ok
      { channelId := "ch1", currency := "DOGE", ledger := "channels-" ++ "DOGE" } ∧
    creditChannel "ch1" { amount := 100, currency := "DOGE", reference := "cc1" } = .ok
      { ledger := .named ("channels-" ++ "DOGE")
        posting := { asset := scriptAsset "DOGE", amount := 100,
                     source := "world", srcOverdraft := false,
                     destination := channelAddr "ch1" }
        reference := "cc1" } :=
  ⟨rfl,
   (@claim_C10_channels_skip_registry "ch1" { currency := "DOGE" }
     { amount := 100, currency := "DOGE", reference := "cc1" }
     (by decide) (by decide) (by decide)).1,
   (@claim_C10_channels_skip_registry "ch1" { currency := "DOGE" }
     { amount := 100, currency := "DOGE", reference := "cc1" }
     (by decide) (by decide) (by decide)).2⟩

example : parseWalletID "u1-USD" = some ("u1", "USD") := by decide
example : parseWalletID "u-1-USD" = some ("u-1", "USD") := by decide
example : parseWalletID "nodash" = none := by decide
